import Mathlib

/-!
Verification of the memflow physical page cache and Win32 translation front-end.

The definitions below are a shallow embedding of the Rust sources:

* `src/flow-core/src/mem/cache/page_cache.rs` (`PageCache` and its operations),
* `src/memflow-win32/src/win32/vat.rs` (`Win32VirtualTranslate`),
* `src/memflow-win32/src/offsets/mod.rs` (`Win32Offsets::from_pdb_slice`).

Machine integers are modelled as `Nat` with explicit `2 ^ 64` bounds where
relevant; byte buffers are `List Nat`; fallible paths (Rust panics, slice
out-of-bounds indexing, `Result`) are modelled with `Option` / `Except`.
Types of the repository that are not under `src/` (the `Address` and
`PageType` types, the `CacheValidator` trait, the `PageChunksMut` splitter,
the connector interface and the PDB field resolver) are modelled from the
specification and marked as such in their doc comments.
-/

namespace Memflow

/-- Addresses are 64-bit integers; we represent them as natural numbers,
meant to lie below `2 ^ 64`. -/
abbrev Addr := Nat

/-- Modelled from the spec: the `Address::INVALID` sentinel (all ones). -/
def INVALID : Addr := 2 ^ 64 - 1

/-- Modelled from the spec: the `Address::null` sentinel (zero). -/
def nullAddr : Addr := 0

/-- Modelled from the spec: `Address::as_page_aligned`, alignment down to the
given page size. -/
def as_page_aligned (a : Addr) (ps : Nat) : Addr := a - a % ps

/-- Modelled from the spec: `PageType` is a bitmask over page attributes. -/
abbrev PageType := Nat

/-- Modelled from the spec: wire value `READ_ONLY = 1`. -/
def PageType.READ_ONLY : PageType := 1

/-- Modelled from the spec: wire value `WRITEABLE = 2`. -/
def PageType.WRITEABLE : PageType := 2

/-- Modelled from the spec: wire value `NO_EXEC = 4`. -/
def PageType.NO_EXEC : PageType := 4

/-- Modelled from the spec: wire value `PAGE_TABLE = 8`. -/
def PageType.PAGE_TABLE : PageType := 8

/-- Modelled from the spec: the bitflags subset test `mask.contains(pt)`,
true iff every bit of `pt` is set in `mask`. -/
def ptContains (mask pt : PageType) : Bool := Nat.land mask pt == pt

/-- Power-of-two test on naturals (used by the Rust `Layout` constructor). -/
def isPow2 (n : Nat) : Bool := n != 0 && Nat.land n (n - 1) == 0

/-- Rust `std::alloc::Layout` as requested by `Layout::from_size_align`:
the record of the requested allocation size and alignment. -/
structure Layout where
  size : Nat
  align : Nat
deriving DecidableEq

/-- Rust `Layout::from_size_align(size, align)`: succeeds iff `align` is a
power of two and the size, rounded up to the alignment, does not overflow
`isize` (i.e. `size + align ≤ 2 ^ 63`). -/
def Layout.from_size_align (sz al : Nat) : Option Layout :=
  if isPow2 al && decide (sz + al ≤ 2 ^ 63) then some ⟨sz, al⟩ else none

/-- State of `PageCache<T>` from `page_cache.rs`.  The external
`CacheValidator` policy object is modelled from the spec (its code is not
under `src/`) as a per-slot boolean flag, the simplest implementation of the
`allocate_slots` / `is_slot_valid` / `validate_slot` / `invalidate_slot`
interface the spec describes. -/
structure PageCache where
  address : List Addr
  cache : List Nat
  address_once_validated : List Addr
  page_size : Nat
  page_type_mask : PageType
  validator : List Bool
deriving DecidableEq

/-- PageCache::new, with the architecture argument replaced by its page size
(the only datum `new` reads from it) and the validator freshly allocated
(`allocate_slots` makes every slot invalid).  The slot storage is the
zero-initialised block of `cache_entries * page_size` bytes obtained from
`alloc_zeroed`. -/
def PageCache.new (page_size : Nat) (size : Nat) (mask : PageType) : PageCache :=
  let cache_entries := size / page_size
  { address := List.replicate cache_entries INVALID
    cache := List.replicate (cache_entries * page_size) 0
    address_once_validated := List.replicate cache_entries INVALID
    page_size := page_size
    page_type_mask := mask
    validator := List.replicate cache_entries false }

/-- Layout requested by `PageCache::new` for the slot storage:
`Layout::from_size_align(cache_entries * page_size, page_size)`. -/
def PageCache.new_layout (page_size : Nat) (size : Nat) : Option Layout :=
  Layout.from_size_align (size / page_size * page_size) page_size

/-- PageCache::page_index. -/
def PageCache.page_index (c : PageCache) (addr : Addr) : Nat :=
  as_page_aligned addr c.page_size / c.page_size % c.address.length

/-- Validator query `is_slot_valid` on the per-slot flag model. -/
def PageCache.is_slot_valid (c : PageCache) (i : Nat) : Bool :=
  c.validator.getD i false

/-- PageCache::page_from_index: the slot buffer, `page_size` bytes starting
at byte offset `page_size * idx` of the contiguous block. -/
def PageCache.page_from_index (c : PageCache) (idx : Nat) : List Nat :=
  (c.cache.drop (c.page_size * idx)).take c.page_size

/-- Hit condition of PageCache::try_page: the slot holds the page-aligned
address and the validator reports the slot valid. -/
def PageCache.try_page_hit (c : PageCache) (addr : Addr) : Bool :=
  let idx := c.page_index addr
  c.address.getD idx INVALID == as_page_aligned addr c.page_size &&
    c.is_slot_valid idx

/-- CacheEntry returned by `cached_page_mut`; the mutable borrow `buf` is
modelled as the value of the slot buffer at the time of the call. -/
structure CacheEntry where
  valid : Bool
  should_validate : Bool
  address : Addr
  buf : List Nat
deriving DecidableEq

/-- PageCache::cached_page_mut.  Returns the entry together with the cache
state after the call (the call may set `address_once_validated`). -/
def PageCache.cached_page_mut (c : PageCache) (addr : Addr) :
    CacheEntry × PageCache :=
  let aligned := as_page_aligned addr c.page_size
  let idx := c.page_index addr
  if c.try_page_hit addr then
    (⟨true, false, aligned, c.page_from_index idx⟩, c)
  else
    let pending := c.address_once_validated.getD idx INVALID
    let c1 :=
      if pending == INVALID then
        { c with address_once_validated :=
            c.address_once_validated.set idx aligned }
      else c
    let pending1 := c1.address_once_validated.getD idx INVALID
    (⟨false, aligned == pending1, aligned, c.page_from_index idx⟩, c1)

/-- PageCache::is_cached_page_type. -/
def PageCache.is_cached_page_type (c : PageCache) (pt : PageType) : Bool :=
  ptContains c.page_type_mask pt

/-- PageCache::validate_page as compiled in release mode (the
`debug_assert_eq!` is compiled out). -/
def PageCache.validate_page (c : PageCache) (addr : Addr) (pt : PageType) :
    PageCache :=
  if c.is_cached_page_type pt then
    let idx := c.page_index addr
    let aligned := as_page_aligned addr c.page_size
    { c with
      address := c.address.set idx aligned
      validator := c.validator.set idx true
      address_once_validated := c.address_once_validated.set idx INVALID }
  else c

/-- PageCache::validate_page as compiled with debug assertions: the
`debug_assert_eq!(self.address_once_validated[idx], aligned_addr)` aborts
(modelled as `none`) when the pending address differs from the page-aligned
address being validated. -/
def PageCache.validate_page_dbg (c : PageCache) (addr : Addr) (pt : PageType) :
    Option PageCache :=
  if c.is_cached_page_type pt then
    let idx := c.page_index addr
    let aligned := as_page_aligned addr c.page_size
    if c.address_once_validated.getD idx INVALID == aligned then
      some { c with
        address := c.address.set idx aligned
        validator := c.validator.set idx true
        address_once_validated := c.address_once_validated.set idx INVALID }
    else none
  else some c

/-- PageCache::invalidate_page. -/
def PageCache.invalidate_page (c : PageCache) (addr : Addr) (pt : PageType) :
    PageCache :=
  if c.is_cached_page_type pt then
    let idx := c.page_index addr
    { c with
      address := c.address.set idx nullAddr
      validator := c.validator.set idx false
      address_once_validated := c.address_once_validated.set idx INVALID }
  else c

/-- Well-formedness of a cache state: at least one slot, the bookkeeping
arrays share the slot count, the byte block covers all slots, and the page
size is positive.  `PageCache::new` establishes this for any positive
`page_size ≤ size`. -/
abbrev PageCache.wf (c : PageCache) : Prop :=
  0 < c.address.length ∧
  c.address_once_validated.length = c.address.length ∧
  c.validator.length = c.address.length ∧
  c.cache.length = c.address.length * c.page_size ∧
  0 < c.page_size

/-- Fuelled helper for the page-chunk splitter; each step emits at least one
byte, so `out.length` steps always suffice. -/
def pageChunksAux (fuel : Nat) (out : List Nat) (addr : Addr) (ps : Nat) :
    List (Addr × List Nat) :=
  match fuel with
  | 0 => []
  | fuel + 1 =>
    if out.length = 0 ∨ ps = 0 then []
    else
      let first := min (ps - addr % ps) out.length
      (addr, out.take first) ::
        pageChunksAux fuel (out.drop first) (addr + first) ps

/-- Modelled from the spec: the `PageChunksMut` page-chunk splitter (its code
is not under `src/`).  Splits `(out, addr)` into sub-buffers each lying
entirely within one page of size `ps`; the first and last chunks may be
short. -/
def pageChunksMut (out : List Nat) (addr : Addr) (ps : Nat) :
    List (Addr × List Nat) :=
  pageChunksAux out.length out addr ps

/-- Modelled from the spec: `PageDescriptor` of a mapped page. -/
structure PageDescriptor where
  page_type : PageType
  page_size : Nat
  page_base : Addr
deriving DecidableEq

/-- Modelled from the spec: `PhysicalAddress`; `page = none` means the
physical address is not known to correspond to a mapped page. -/
structure PhysicalAddress where
  address : Addr
  page : Option PageDescriptor
deriving DecidableEq

/-- Modelled from the spec: the `Address → PhysicalAddress` conversion
(`.into()`), which carries no page descriptor. -/
def addrToPhys (a : Addr) : PhysicalAddress := ⟨a, none⟩

/-- Error kinds of the framework (spec section 7). -/
inductive ErrorKind where
  | pageNotPresent
  | invalidArchitecture
  | outOfBounds
  | connectorIo
  | notFound
  | pdbError (msg : String)
deriving DecidableEq

instance {ε α : Type} [DecidableEq ε] [DecidableEq α] :
    DecidableEq (Except ε α) := fun x y =>
  match x, y with
  | .ok a, .ok b =>
    if h : a = b then isTrue (h ▸ rfl)
    else isFalse fun hc => h (Except.ok.inj hc)
  | .error a, .error b =>
    if h : a = b then isTrue (h ▸ rfl)
    else isFalse fun hc => h (Except.error.inj hc)
  | .ok _, .error _ => isFalse fun hc => Except.noConfusion hc
  | .error _, .ok _ => isFalse fun hc => Except.noConfusion hc

/-- Pipeline work item: `ToDo((PhysicalAddress, &mut [u8]))` or
`Done(Result<(PhysicalAddress, &mut [u8]), Error>)`; buffers are modelled by
their byte contents. -/
inductive Item where
  | todo : PhysicalAddress → List Nat → Item
  | done : Except ErrorKind (PhysicalAddress × List Nat) → Item
deriving DecidableEq

/-- PageCache::split_to_chunks: maps a `ToDo` item through the page-chunk
splitter, keeping the page descriptor on every sub-chunk; on a `Done` item
the source panics (modelled as `none`). -/
def split_to_chunks (x : Item) (ps : Nat) : Option (List Item) :=
  match x with
  | .todo a out =>
    some ((pageChunksMut out a.address ps).map
      fun pc => .todo ⟨pc.1, a.page⟩ pc.2)
  | .done _ => none

/-- Modelled from the spec: a successful connector, giving the byte stored at
every physical address (`phys_read_raw_into` of the connector interface). -/
abbrev PhysMem := Addr → Nat

/-- Bytes delivered by a connector read of `len` bytes at address `a`. -/
def phys_read (mem : PhysMem) (a : Addr) (len : Nat) : List Nat :=
  (List.range len).map fun i => mem (a + i)

/-- Overwrite slot `idx` of the cache block with `bytes` (the effect of
`phys_read_raw_into` targeting a slot buffer). -/
def PageCache.write_page (c : PageCache) (idx : Nat) (bytes : List Nat) :
    PageCache :=
  { c with cache :=
      c.cache.take (c.page_size * idx) ++ bytes ++
        c.cache.drop (c.page_size * idx + c.page_size) }

/-- Body of the `flat_map` closure of PageCache::cached_read, processing one
inbound item.  Returns the items emitted downstream and the cache state after
the item, or `none` where the source panics (the `valid` branch indexes
`cached_page[start..start + out.len()]`, out of bounds when the unsplit
buffer extends past the end of the slot).  Note that the source's call to the
chunk splitter is commented out: the item's buffer is processed whole. -/
def cached_read_item (c : PageCache) (x : Item) :
    Option (List Item × PageCache) :=
  match x with
  | .done _ => some ([x], c)
  | .todo a out =>
    match a.page with
    | none => some ([x], c)
    | some pg =>
      if c.is_cached_page_type pg.page_type then
        let ec := c.cached_page_mut a.address
        let entry := ec.1
        let c1 := ec.2
        if !entry.valid then
          if entry.should_validate then
            let c2 := c1.validate_page a.address pg.page_type
            some ([.todo a out, .todo (addrToPhys entry.address) entry.buf], c2)
          else
            some ([.todo a out], c1)
        else
          let aligned := as_page_aligned a.address c1.page_size
          let pagebuf := c1.page_from_index (c1.page_index a.address)
          let start := a.address - aligned
          if start + out.length ≤ pagebuf.length then
            some ([.done (.ok (a, (pagebuf.drop start).take out.length))], c1)
          else none
      else
        some ([x], c)

/-- PageCache::cached_read over a finite batch: the `flat_map` of
`cached_read_item`, threading the cache state left to right. -/
def cached_read (c : PageCache) (items : List Item) :
    Option (List Item × PageCache) :=
  match items with
  | [] => some ([], c)
  | x :: rest => do
    let yc ← cached_read_item c x
    let zc ← cached_read yc.2 rest
    pure (yc.1 ++ zc.1, zc.2)

/-- PageCache::cached_read_single: per-page loop over the chunks of `out`.
Returns the final contents of the caller's buffer and the cache state.  A
chunk that is neither valid nor `should_validate` is left untouched by the
loop body. -/
def cached_read_single (mem : PhysMem) (c : PageCache)
    (addr : PhysicalAddress) (out : List Nat) : List Nat × PageCache :=
  match addr.page with
  | none => (out, c)
  | some pg =>
    if c.is_cached_page_type pg.page_type then
      (pageChunksMut out addr.address c.page_size).foldl
        (fun acc pc =>
          let cs := acc.2
          let paddr := pc.1
          let chunk := pc.2
          let ec := cs.cached_page_mut paddr
          let entry := ec.1
          let c1 := ec.2
          let idx := c1.page_index paddr
          let c2 := if entry.should_validate then
              c1.write_page idx (phys_read mem entry.address c1.page_size)
            else c1
          let chunk1 := if entry.valid || entry.should_validate then
              ((c2.page_from_index idx).drop (paddr - entry.address)).take
                chunk.length
            else chunk
          let c3 := if entry.should_validate then
              c2.validate_page paddr pg.page_type
            else c2
          (acc.1 ++ chunk1, c3))
        ([], c)
    else
      (phys_read mem addr.address out.length, c)

/-- Architecture objects reachable through `ArchitectureObj`; `unknown`
stands for any architecture outside the four configured walkers (for example
`ArchitectureIdent::Unknown` or a third-party implementation). -/
inductive ArchObj where
  | x86_32
  | x86_32_pae
  | x86_64
  | aarch64
  | unknown
deriving DecidableEq

/-- Win32VirtualTranslate from `vat.rs`. -/
structure Win32VirtualTranslate where
  sys_arch : ArchObj
  dtb : Addr
deriving DecidableEq

/-- Modelled from the spec: `x86::new_translator(dtb, arch)` (not under
`src/`), which succeeds exactly for the x86 family of configured walkers. -/
def x86_new_translator (_dtb : Addr) (arch : ArchObj) : Option ArchObj :=
  match arch with
  | .x86_32 => some arch
  | .x86_32_pae => some arch
  | .x86_64 => some arch
  | _ => none

/-- Modelled from the spec: `arm::new_translator_nonsplit(dtb, arch)` (not
under `src/`), which succeeds exactly for the AArch64 walker. -/
def arm_new_translator_nonsplit (_dtb : Addr) (arch : ArchObj) : Option ArchObj :=
  match arch with
  | .aarch64 => some arch
  | _ => none

/-- Outcome of dispatching `virt_to_phys_iter` on a `Win32VirtualTranslate`:
either one of the two walkers runs, or the batch's failure channel receives
an error, or the process panics. -/
inductive VatDispatch where
  | x86Walk (arch : ArchObj)
  | armWalk (arch : ArchObj)
  | errorOut (e : ErrorKind)
  | panicked (msg : String)
deriving DecidableEq

/-- Dispatch performed by `Win32VirtualTranslate::virt_to_phys_iter` in the
source: try the x86 walker, then the AArch64 walker, else
`panic!("Invalid architecture")`. -/
def Win32VirtualTranslate.virt_to_phys_iter_dispatch
    (t : Win32VirtualTranslate) : VatDispatch :=
  match x86_new_translator t.dtb t.sys_arch with
  | some tr => .x86Walk tr
  | none =>
    match arm_new_translator_nonsplit t.dtb t.sys_arch with
    | some tr => .armWalk tr
    | none => .panicked "Invalid architecture"

/-- Modelled from the spec: the dispatch the specification describes, which
on architectural mismatch surfaces `InvalidArchitecture` through the batch's
error channel instead of aborting. -/
def win32_vat_dispatch_specModel (t : Win32VirtualTranslate) : VatDispatch :=
  match x86_new_translator t.dtb t.sys_arch with
  | some tr => .x86Walk tr
  | none =>
    match arm_new_translator_nonsplit t.dtb t.sys_arch with
    | some tr => .armWalk tr
    | none => .errorOut .invalidArchitecture

/-- Win32VirtualTranslate::translation_table_id:
`dtb.as_u64().overflowing_shr(12).0 as usize` (the shift amount 12 is below
64, so `overflowing_shr` is a plain right shift). -/
def Win32VirtualTranslate.translation_table_id (t : Win32VirtualTranslate)
    (_address : Addr) : Nat :=
  (t.dtb % 2 ^ 64) >>> 12

/-- Modelled from the spec: a PDB struct record mapping field names to byte
offsets (`PdbStruct` field resolution is out of scope, interface only). -/
structure PdbStructData where
  fields : List (String × Nat)
deriving DecidableEq

/-- Field lookup `PdbStruct::find_field`. -/
def PdbStructData.find_field (s : PdbStructData) (name : String) : Option Nat :=
  (s.fields.find? fun f => f.1 == name).map fun f => f.2

/-- Modelled from the spec: a parsed PDB, as a map from struct names to their
records (`PdbStruct::with(pdb_slice, name)` succeeds iff the struct is
present). -/
structure PdbFile where
  structs : List (String × PdbStructData)
deriving DecidableEq

/-- Struct lookup `PdbStruct::with`. -/
def PdbFile.getStruct (p : PdbFile) (name : String) : Option PdbStructData :=
  (p.structs.find? fun s => s.1 == name).map fun s => s.2

/-- Win32OffsetsData: the flat record of byte offsets. -/
structure Win32OffsetsData where
  list_blink : Nat
  eproc_link : Nat
  kproc_dtb : Nat
  eproc_pid : Nat
  eproc_name : Nat
  eproc_peb : Nat
  eproc_thread_list : Nat
  eproc_wow64 : Nat
  kthread_teb : Nat
  ethread_list_entry : Nat
  teb_peb : Nat
  teb_peb_x86 : Nat
deriving DecidableEq

/-- Lift an optional lookup into the fallible result, with the `Error::PDB`
message carried by the source. -/
def ofOption {α : Type} (o : Option α) (msg : String) : Except String α :=
  match o with
  | some a => .ok a
  | none => .error msg

/-- Win32Offsets::from_pdb_slice over the PDB model, preserving the source's
lookup order, its fallbacks for `WoW64Process`/`Wow64Process` and `_TEB32`,
and its `Error::PDB` messages. -/
def from_pdb_slice (pdb : PdbFile) : Except String Win32OffsetsData := do
  let list ← ofOption (pdb.getStruct "_LIST_ENTRY") "_LIST_ENTRY not found"
  let kproc ← ofOption (pdb.getStruct "_KPROCESS") "_KPROCESS not found"
  let eproc ← ofOption (pdb.getStruct "_EPROCESS") "_EPROCESS not found"
  let ethread ← ofOption (pdb.getStruct "_ETHREAD") "_ETHREAD not found"
  let kthread ← ofOption (pdb.getStruct "_KTHREAD") "_KTHREAD not found"
  let teb ← ofOption (pdb.getStruct "_TEB") "_TEB not found"
  let list_blink ← ofOption (list.find_field "Blink")
    "_LIST_ENTRY::Blink not found"
  let eproc_link ← ofOption (eproc.find_field "ActiveProcessLinks")
    "_EPROCESS::ActiveProcessLinks not found"
  let kproc_dtb ← ofOption (kproc.find_field "DirectoryTableBase")
    "_KPROCESS::DirectoryTableBase not found"
  let eproc_pid ← ofOption (eproc.find_field "UniqueProcessId")
    "_EPROCESS::UniqueProcessId not found"
  let eproc_name ← ofOption (eproc.find_field "ImageFileName")
    "_EPROCESS::ImageFileName not found"
  let eproc_peb ← ofOption (eproc.find_field "Peb")
    "_EPROCESS::Peb not found"
  let eproc_thread_list ← ofOption (eproc.find_field "ThreadListHead")
    "_EPROCESS::ThreadListHead not found"
  let eproc_wow64 :=
    match (eproc.find_field "WoW64Process").orElse
        (fun _ => eproc.find_field "Wow64Process") with
    | some f => f
    | none => 0
  let kthread_teb ← ofOption (kthread.find_field "Teb")
    "_KTHREAD::Teb not found"
  let ethread_list_entry ← ofOption (ethread.find_field "ThreadListEntry")
    "_ETHREAD::ThreadListEntry not found"
  let teb_peb ← ofOption (teb.find_field "ProcessEnvironmentBlock")
    "_TEB::ProcessEnvironmentBlock not found"
  let teb_peb_x86 ←
    match pdb.getStruct "_TEB32" with
    | some teb32 =>
      ofOption (teb32.find_field "ProcessEnvironmentBlock")
        "_TEB32::ProcessEnvironmentBlock not found"
    | none => pure 0
  pure
    { list_blink := list_blink
      eproc_link := eproc_link
      kproc_dtb := kproc_dtb
      eproc_pid := eproc_pid
      eproc_name := eproc_name
      eproc_peb := eproc_peb
      eproc_thread_list := eproc_thread_list
      eproc_wow64 := eproc_wow64
      kthread_teb := kthread_teb
      ethread_list_entry := ethread_list_entry
      teb_peb := teb_peb
      teb_peb_x86 := teb_peb_x86 }

theorem getD_set_self {α : Type} (l : List α) (i : Nat) (v d : α)
    (h : i < l.length) : (l.set i v).getD i d = v := by
  rw [List.getD_eq_getElem?_getD, List.getElem?_set_self h]
  rfl

theorem wf_new (ps size : Nat) (mask : PageType) (hps : 0 < ps)
    (hsz : ps ≤ size) : (PageCache.new ps size mask).wf := by
  refine ⟨?_, ?_, ?_, ?_, hps⟩ <;> simp [PageCache.new]
  exact Nat.div_pos hsz hps

theorem cached_page_mut_hit (c : PageCache) (addr : Addr)
    (hh : c.try_page_hit addr = true) :
    c.cached_page_mut addr =
      (⟨true, false, as_page_aligned addr c.page_size,
        c.page_from_index (c.page_index addr)⟩, c) := by
  unfold PageCache.cached_page_mut
  rw [if_pos hh]

theorem cached_page_mut_miss_unset (c : PageCache) (addr : Addr)
    (hh : c.try_page_hit addr = false)
    (hp : c.address_once_validated.getD (c.page_index addr) INVALID = INVALID)
    (hidx : c.page_index addr < c.address_once_validated.length) :
    c.cached_page_mut addr =
      (⟨false, true, as_page_aligned addr c.page_size,
        c.page_from_index (c.page_index addr)⟩,
       { c with address_once_validated :=
          (c.address_once_validated.set (c.page_index addr)
            (as_page_aligned addr c.page_size)) }) := by
  unfold PageCache.cached_page_mut
  rw [if_neg (by simp [hh])]
  dsimp only
  rw [hp]
  simp only [beq_self_eq_true, if_true]
  rw [getD_set_self _ _ _ _ hidx]
  simp

theorem cached_page_mut_miss_set (c : PageCache) (addr : Addr)
    (hh : c.try_page_hit addr = false)
    (hp : c.address_once_validated.getD (c.page_index addr) INVALID ≠ INVALID) :
    c.cached_page_mut addr =
      (⟨false,
        as_page_aligned addr c.page_size ==
          c.address_once_validated.getD (c.page_index addr) INVALID,
        as_page_aligned addr c.page_size,
        c.page_from_index (c.page_index addr)⟩, c) := by
  unfold PageCache.cached_page_mut
  rw [if_neg (by simp [hh])]
  dsimp only
  rw [if_neg (by simpa [List.getD_eq_getElem?_getD] using hp)]

theorem cached_page_mut_preserves_bytes (c : PageCache) (addr : Addr) :
    ((c.cached_page_mut addr).2).cache = c.cache := by
  unfold PageCache.cached_page_mut
  by_cases h : c.try_page_hit addr
  · simp [h]
  · simp only [h, if_false, Bool.false_eq_true]
    split <;> rfl

/-- Conclusion of the slot-storage claim: the layout request is page-aligned
and of size `N * page_size`, the block is `N * page_size` zero bytes, slot
`i` is the `page_size`-byte window at offset `i * page_size`, every slot of
a fresh cache reads as all zeros, and `cached_page_mut` never writes a slot
byte (so pre-validation reads stay zero). -/
def newCacheZeroed (ps size : Nat) (mask : PageType) : Prop :=
  PageCache.new_layout ps size = some ⟨size / ps * ps, ps⟩ ∧
  (PageCache.new ps size mask).cache = List.replicate (size / ps * ps) 0 ∧
  (PageCache.new ps size mask).cache.length = size / ps * ps ∧
  (∀ i, (PageCache.new ps size mask).page_from_index i =
    ((PageCache.new ps size mask).cache.drop (ps * i)).take ps) ∧
  (∀ i, i < size / ps →
    (PageCache.new ps size mask).page_from_index i = List.replicate ps 0) ∧
  (∀ c' : PageCache, ∀ a : Addr, ((c'.cached_page_mut a).2).cache = c'.cache)

/-- Claim C7: `PageCache::new` asks for one page-aligned contiguous block of
`N * page_size` bytes, zero-initialised, with slot `i` at byte offset
`i * page_size`; a slot read before the first validation of that slot yields
all zero bytes. -/
theorem page_cache_new_zeroed (ps size : Nat) (mask : PageType)
    (hp : isPow2 ps = true) (hfit : size / ps * ps + ps ≤ 2 ^ 63) :
    newCacheZeroed ps size mask := by
  have hcond : (isPow2 ps && decide (size / ps * ps + ps ≤ 2 ^ 63)) = true := by
    simp only [hp, Bool.true_and, decide_eq_true_eq]
    exact hfit
  refine ⟨?_, rfl, by simp [PageCache.new], fun i => rfl, ?_,
    cached_page_mut_preserves_bytes⟩
  · unfold PageCache.new_layout Layout.from_size_align
    rw [if_pos hcond]
  · intro i hi
    show ((List.replicate (size / ps * ps) 0).drop (ps * i)).take ps =
      List.replicate ps 0
    rw [List.drop_replicate, List.take_replicate]
    have h2 : ps * i + ps ≤ ps * (size / ps) := by
      simpa [Nat.mul_succ] using Nat.mul_le_mul_left ps hi
    have h3 : ps ≤ size / ps * ps - ps * i := by
      rw [Nat.mul_comm (size / ps) ps]
      exact Nat.le_sub_of_add_le (by rw [Nat.add_comm]; exact h2)
    rw [min_eq_left h3]

/-- Witness for the slot-storage claim at a 2-slot, 4096-byte-page cache. -/
theorem page_cache_new_zeroed_instance :
    isPow2 4096 = true ∧ 8192 / 4096 * 4096 + 4096 ≤ 2 ^ 63 ∧
      newCacheZeroed 4096 8192 PageType.WRITEABLE :=
  ⟨by decide, by decide,
    page_cache_new_zeroed 4096 8192 PageType.WRITEABLE (by decide) (by decide)⟩

/-- Conclusion of the non-cacheable frame claim: both maintenance operations
leave the whole cache state (slot addresses, pending addresses, validator
flags and slot bytes) unchanged. -/
def noncacheableFrame (c : PageCache) (addr : Addr) (pt : PageType) : Prop :=
  c.validate_page addr pt = c ∧ c.invalidate_page addr pt = c

/-- Claim C8: for a page type not contained in `page_type_mask`,
`validate_page` and `invalidate_page` are the identity on the cache state. -/
theorem noncacheable_page_type_frame (c : PageCache) (addr : Addr)
    (pt : PageType) (h : c.is_cached_page_type pt = false) :
    noncacheableFrame c addr pt := by
  constructor <;>
    simp [PageCache.validate_page, PageCache.invalidate_page, h]

/-- Witness for the non-cacheable frame claim: `PAGE_TABLE` against a
`WRITEABLE`-only mask. -/
theorem noncacheable_page_type_frame_instance :
    (PageCache.new 4 8 PageType.WRITEABLE).is_cached_page_type
        PageType.PAGE_TABLE = false ∧
      noncacheableFrame (PageCache.new 4 8 PageType.WRITEABLE) 5
        PageType.PAGE_TABLE :=
  ⟨by decide,
    noncacheable_page_type_frame (PageCache.new 4 8 PageType.WRITEABLE) 5
      PageType.PAGE_TABLE (by decide)⟩

/-- Two-phase lookup contract of `cached_page_mut` as the spec states it:
on a `try_page` hit the entry is valid and needs no validation (and the
state is untouched); on a miss the entry is invalid, and `should_validate`
is true exactly when the slot's pending address is unset (in which case it
becomes `aligned(addr)`) or already equals `aligned(addr)`, while a pending
address holding a different address yields `should_validate = false` with
the state untouched. -/
def cachedPageContract (c : PageCache) (addr : Addr) : Prop :=
  (c.try_page_hit addr = true →
    (c.cached_page_mut addr).1.valid = true ∧
    (c.cached_page_mut addr).1.should_validate = false ∧
    (c.cached_page_mut addr).2 = c) ∧
  (c.try_page_hit addr = false →
    (c.cached_page_mut addr).1.valid = false ∧
    (c.address_once_validated.getD (c.page_index addr) INVALID = INVALID →
      (c.cached_page_mut addr).1.should_validate = true ∧
      (c.cached_page_mut addr).2 =
        { c with address_once_validated :=
            (c.address_once_validated.set (c.page_index addr)
              (as_page_aligned addr c.page_size)) }) ∧
    (c.address_once_validated.getD (c.page_index addr) INVALID ≠ INVALID →
      c.address_once_validated.getD (c.page_index addr) INVALID =
        as_page_aligned addr c.page_size →
      (c.cached_page_mut addr).1.should_validate = true ∧
      (c.cached_page_mut addr).2 = c) ∧
    (c.address_once_validated.getD (c.page_index addr) INVALID ≠ INVALID →
      c.address_once_validated.getD (c.page_index addr) INVALID ≠
        as_page_aligned addr c.page_size →
      (c.cached_page_mut addr).1.should_validate = false ∧
      (c.cached_page_mut addr).2 = c))

/-- Claim C1: `cached_page_mut` satisfies the two-phase lookup contract on
every well-formed cache state. -/
theorem cached_page_mut_two_phase (c : PageCache) (addr : Addr)
    (hwf : c.wf) : cachedPageContract c addr := by
  obtain ⟨hN, hpend, hval, hcache, hps⟩ := hwf
  have hidx : c.page_index addr < c.address_once_validated.length := by
    rw [hpend]
    exact Nat.mod_lt _ hN
  by_cases hh : c.try_page_hit addr = true
  · have e := cached_page_mut_hit c addr hh
    refine ⟨fun _ => ⟨by rw [e], by rw [e], by rw [e]⟩,
      fun hc => by rw [hh] at hc; cases hc⟩
  · simp only [Bool.not_eq_true] at hh
    refine ⟨(fun hc => by rw [hh] at hc; cases hc), fun _ => ?_⟩
    by_cases hp :
      c.address_once_validated.getD (c.page_index addr) INVALID = INVALID
    · have e := cached_page_mut_miss_unset c addr hh hp hidx
      exact ⟨by rw [e], fun _ => ⟨by rw [e], by rw [e]⟩,
        fun hne _ => absurd hp hne, fun hne _ => absurd hp hne⟩
    · have e := cached_page_mut_miss_set c addr hh hp
      refine ⟨by rw [e], fun hc => absurd hc hp, fun _ ha => ?_,
        fun _ ha => ?_⟩
      · refine ⟨?_, by rw [e]⟩
        rw [e]
        show (as_page_aligned addr c.page_size ==
          c.address_once_validated.getD (c.page_index addr) INVALID) = true
        rw [ha, beq_self_eq_true]
      · refine ⟨?_, by rw [e]⟩
        rw [e]
        show (as_page_aligned addr c.page_size ==
          c.address_once_validated.getD (c.page_index addr) INVALID) = false
        simp only [beq_eq_false_iff_ne, ne_eq]
        exact fun hc => ha hc.symm

/-- Witness for the two-phase contract on a fresh 2-slot cache at address 5. -/
theorem cached_page_mut_two_phase_instance :
    (PageCache.new 4 8 PageType.WRITEABLE).wf ∧
      cachedPageContract (PageCache.new 4 8 PageType.WRITEABLE) 5 :=
  ⟨by decide,
    cached_page_mut_two_phase (PageCache.new 4 8 PageType.WRITEABLE) 5
      (by decide)⟩

/-- Claim C2: aliasing safety of the pending-address protocol.  For two
distinct page-aligned addresses hashing to the same slot, two consecutive
`cached_page_mut` calls (no intervening validate/invalidate) never both
report `should_validate = true`. -/
theorem cached_page_mut_aliasing_safety (c : PageCache) (a b : Addr)
    (hwf : c.wf)
    (ha : as_page_aligned a c.page_size = a)
    (hb : as_page_aligned b c.page_size = b)
    (hab : a ≠ b) (hainv : a ≠ INVALID)
    (hidx : c.page_index a = c.page_index b) :
    ¬((c.cached_page_mut a).1.should_validate = true ∧
      (((c.cached_page_mut a).2).cached_page_mut b).1.should_validate =
        true) := by
  obtain ⟨hN, hpend, hval, hcache, hps⟩ := hwf
  have hlt : c.page_index a < c.address_once_validated.length := by
    rw [hpend]
    exact Nat.mod_lt _ hN
  rintro ⟨h1, h2⟩
  by_cases hh : c.try_page_hit a = true
  · rw [cached_page_mut_hit c a hh] at h1
    cases h1
  · simp only [Bool.not_eq_true] at hh
    by_cases hp :
      c.address_once_validated.getD (c.page_index a) INVALID = INVALID
    · rw [cached_page_mut_miss_unset c a hh hp hlt] at h2
      dsimp only at h2
      set c1 : PageCache :=
        { c with address_once_validated :=
            (c.address_once_validated.set (c.page_index a)
              (as_page_aligned a c.page_size)) } with hc1
      by_cases hh2 : c1.try_page_hit b = true
      · rw [cached_page_mut_hit c1 b hh2] at h2
        cases h2
      · simp only [Bool.not_eq_true] at hh2
        have hpi : c1.page_index b = c.page_index a := by
          show c.page_index b = c.page_index a
          exact hidx.symm
        have hgd : c1.address_once_validated.getD (c1.page_index b) INVALID =
            as_page_aligned a c.page_size := by
          show (c.address_once_validated.set (c.page_index a)
            (as_page_aligned a c.page_size)).getD (c1.page_index b) INVALID =
              as_page_aligned a c.page_size
          rw [hpi]
          exact getD_set_self _ _ _ _ hlt
        have hgdne :
            c1.address_once_validated.getD (c1.page_index b) INVALID ≠
              INVALID := by
          rw [hgd, ha]
          exact hainv
        rw [cached_page_mut_miss_set c1 b hh2 hgdne] at h2
        dsimp only at h2
        rw [hgd] at h2
        have hba : b = a := by
          have hb1 : as_page_aligned b c1.page_size = b := hb
          rw [hb1, ha] at h2
          exact eq_of_beq h2
        exact hab hba.symm
    · rw [cached_page_mut_miss_set c a hh hp] at h1 h2
      dsimp only at h1 h2
      have hpa : c.address_once_validated.getD (c.page_index a) INVALID =
          a := by
        have h1' := eq_of_beq h1
        rw [ha] at h1'
        exact h1'.symm
      by_cases hh2 : c.try_page_hit b = true
      · rw [cached_page_mut_hit c b hh2] at h2
        cases h2
      · simp only [Bool.not_eq_true] at hh2
        have hgdb : c.address_once_validated.getD (c.page_index b) INVALID =
            a := by
          rw [← hidx]
          exact hpa
        have hgdbne :
            c.address_once_validated.getD (c.page_index b) INVALID ≠
              INVALID := by
          rw [hgdb]
          exact hainv
        rw [cached_page_mut_miss_set c b hh2 hgdbne] at h2
        rw [hgdb, hb] at h2
        exact hab (eq_of_beq h2).symm

/-- Witness for aliasing safety, the spec's collision-bypass scenario: a
2-slot cache with 4096-byte pages and the colliding addresses `0x0000` and
`0x2000`; the first call reserves the slot (`should_validate = true`), the
second is told to bypass (`valid = false`, `should_validate = false`). -/
theorem cached_page_mut_aliasing_safety_instance :
    (PageCache.new 4096 8192 PageType.WRITEABLE).wf ∧
      as_page_aligned 0 4096 = 0 ∧ as_page_aligned 0x2000 4096 = 0x2000 ∧
      (PageCache.new 4096 8192 PageType.WRITEABLE).page_index 0 =
        (PageCache.new 4096 8192 PageType.WRITEABLE).page_index 0x2000 ∧
      ((PageCache.new 4096 8192 PageType.WRITEABLE).cached_page_mut
          0).1.should_validate = true ∧
      ((((PageCache.new 4096 8192 PageType.WRITEABLE).cached_page_mut
          0).2).cached_page_mut 0x2000).1.valid = false ∧
      ((((PageCache.new 4096 8192 PageType.WRITEABLE).cached_page_mut
          0).2).cached_page_mut 0x2000).1.should_validate = false ∧
      ¬(((PageCache.new 4096 8192 PageType.WRITEABLE).cached_page_mut
            0).1.should_validate = true ∧
        ((((PageCache.new 4096 8192 PageType.WRITEABLE).cached_page_mut
            0).2).cached_page_mut 0x2000).1.should_validate = true) :=
  ⟨wf_new 4096 8192 PageType.WRITEABLE (by decide) (by decide), by decide,
    by decide, by decide, by decide, by decide, by decide,
    cached_page_mut_aliasing_safety (PageCache.new 4096 8192 PageType.WRITEABLE)
      0 0x2000 (wf_new 4096 8192 PageType.WRITEABLE (by decide) (by decide))
      (by decide) (by decide) (by decide) (by decide) (by decide)⟩

theorem validate_page_eq (c : PageCache) (addr : Addr) (pt : PageType)
    (h : c.is_cached_page_type pt = true) :
    c.validate_page addr pt =
      { c with
        address := c.address.set (c.page_index addr)
          (as_page_aligned addr c.page_size)
        validator := c.validator.set (c.page_index addr) true
        address_once_validated :=
          c.address_once_validated.set (c.page_index addr) INVALID } := by
  unfold PageCache.validate_page
  rw [if_pos h]

theorem invalidate_page_eq (c : PageCache) (addr : Addr) (pt : PageType)
    (h : c.is_cached_page_type pt = true) :
    c.invalidate_page addr pt =
      { c with
        address := c.address.set (c.page_index addr) nullAddr
        validator := c.validator.set (c.page_index addr) false
        address_once_validated :=
          c.address_once_validated.set (c.page_index addr) INVALID } := by
  unfold PageCache.invalidate_page
  rw [if_pos h]

/-- Claim C6 (amended): with debug assertions compiled out (release builds),
`validate_page` and `invalidate_page` are idempotent on the cache state. -/
theorem validate_invalidate_idempotent (c : PageCache) (addr : Addr)
    (pt : PageType) :
    (c.validate_page addr pt).validate_page addr pt =
        c.validate_page addr pt ∧
      (c.invalidate_page addr pt).invalidate_page addr pt =
        c.invalidate_page addr pt := by
  by_cases h : c.is_cached_page_type pt = true
  · constructor
    · have h2 : (c.validate_page addr pt).is_cached_page_type pt = true := by
        rw [validate_page_eq c addr pt h]
        exact h
      rw [validate_page_eq c addr pt h] at h2
      rw [validate_page_eq c addr pt h]
      rw [validate_page_eq _ addr pt h2]
      simp [PageCache.page_index, List.set_set, List.length_set]
    · have h2 : (c.invalidate_page addr pt).is_cached_page_type pt = true := by
        rw [invalidate_page_eq c addr pt h]
        exact h
      rw [invalidate_page_eq c addr pt h] at h2
      rw [invalidate_page_eq c addr pt h]
      rw [invalidate_page_eq _ addr pt h2]
      simp [PageCache.page_index, List.set_set, List.length_set]
  · simp only [Bool.not_eq_true] at h
    have ev : c.validate_page addr pt = c := by
      unfold PageCache.validate_page
      rw [if_neg (by simp [h])]
    have ei : c.invalidate_page addr pt = c := by
      unfold PageCache.invalidate_page
      rw [if_neg (by simp [h])]
    rw [ev, ei, ev, ei]
    exact ⟨rfl, rfl⟩

/-- Counterexample to claim C6 as stated: compiled with debug assertions (as
in the repository's own test builds), a second `validate_page(a)` fails the
`debug_assert_eq!` because the first call cleared `address_once_validated`,
so `validate; validate` is not equivalent to a single `validate`. -/
theorem validate_page_dbg_not_idempotent :
    ((((PageCache.new 4 16 PageType.WRITEABLE).cached_page_mut
          0).2.validate_page_dbg 0 PageType.WRITEABLE).bind
        fun c => c.validate_page_dbg 0 PageType.WRITEABLE) ≠
      (((PageCache.new 4 16 PageType.WRITEABLE).cached_page_mut
          0).2.validate_page_dbg 0 PageType.WRITEABLE) := by decide

/-- A reachable 2-slot cache state with 16-byte pages whose slot 0 validly
holds page `0x0`; the 32-byte block holds the bytes `0..31`. -/
def hitCache : PageCache :=
  { address := [0, INVALID]
    cache := List.range 32
    address_once_validated := [INVALID, INVALID]
    page_size := 16
    page_type_mask := PageType.WRITEABLE
    validator := [true, false] }

/-- A `ToDo` work item whose 8-byte buffer starts at `0xC` and crosses the
16-byte page boundary at `0x10`. -/
def crossingItem : Item :=
  .todo ⟨12, some ⟨PageType.WRITEABLE, 16, 0⟩⟩ (List.replicate 8 0xCC)

/-- Claim C3 evaluated on the code: `cached_read` consults the cache with the
item's buffer unsplit.  On a valid cached page the unsplit page-crossing
buffer indexes the slot out of bounds (a panic, modelled `none`); the chunk
splitter, had it been invoked as the spec says, would have produced two
in-page sub-chunks; and on a cache miss the item is forwarded whole, not
split. -/
theorem cached_read_does_not_split_buffers :
    cached_read_item hitCache crossingItem = none ∧
      split_to_chunks crossingItem 16 =
        some [Item.todo ⟨12, some ⟨PageType.WRITEABLE, 16, 0⟩⟩
            (List.replicate 4 0xCC),
          Item.todo ⟨16, some ⟨PageType.WRITEABLE, 16, 0⟩⟩
            (List.replicate 4 0xCC)] ∧
      (cached_read_item (PageCache.new 16 32 PageType.WRITEABLE)
            crossingItem).map Prod.fst =
        some [crossingItem, Item.todo (addrToPhys 0) (List.replicate 16 0)] :=
  ⟨by decide, by decide, by decide⟩

/-- Cache state after `cached_page_mut(0x0)` on a fresh 2-slot cache with
16-byte pages: slot 0 is reserved (pending address `0x0`) but not filled. -/
def bypassCache : PageCache :=
  ((PageCache.new 16 32 PageType.WRITEABLE).cached_page_mut 0).2

/-- Claim C5 evaluated on the code: in `cached_read_single` a chunk in the
collision-bypass case (neither valid nor `should_validate`, here `0x20`
colliding with the pending reservation of `0x0`) is skipped entirely: the
caller's buffer keeps its prior bytes instead of receiving the connector's
bytes, and the cache is untouched, while the call still reports success. -/
theorem cached_read_single_bypass_chunk_skipped :
    ((bypassCache.cached_page_mut 32).1.valid = false ∧
        (bypassCache.cached_page_mut 32).1.should_validate = false) ∧
      (cached_read_single (fun _ => 0xAB) bypassCache
          ⟨32, some ⟨PageType.WRITEABLE, 16, 32⟩⟩ (List.replicate 8 0xCC)).1 =
        List.replicate 8 0xCC ∧
      (cached_read_single (fun _ => 0xAB) bypassCache
          ⟨32, some ⟨PageType.WRITEABLE, 16, 32⟩⟩ (List.replicate 8 0xCC)).1 ≠
        phys_read (fun _ => 0xAB) 32 8 ∧
      (cached_read_single (fun _ => 0xAB) bypassCache
          ⟨32, some ⟨PageType.WRITEABLE, 16, 32⟩⟩ (List.replicate 8 0xCC)).2 =
        bypassCache :=
  ⟨⟨by decide, by decide⟩, by decide, by decide, by decide⟩

/-- Counterexample to claim C4 as stated: on an architecture matching
neither configured walker the source's dispatch panics with
"Invalid architecture" — it aborts the process rather than surfacing
`InvalidArchitecture` through the batch's error channel, which is what the
spec-modelled dispatch does. -/
theorem virt_to_phys_iter_mismatch_cex :
    (Win32VirtualTranslate.mk ArchObj.unknown
          4096).virt_to_phys_iter_dispatch =
        VatDispatch.panicked "Invalid architecture" ∧
      (Win32VirtualTranslate.mk ArchObj.unknown
          4096).virt_to_phys_iter_dispatch ≠
        VatDispatch.errorOut ErrorKind.invalidArchitecture ∧
      win32_vat_dispatch_specModel
          (Win32VirtualTranslate.mk ArchObj.unknown 4096) =
        VatDispatch.errorOut ErrorKind.invalidArchitecture :=
  ⟨rfl, by decide, rfl⟩

/-- Claim C4 (amended): when the configured DTB/architecture pair matches
none of the configured walkers, `virt_to_phys_iter` panics with the message
"Invalid architecture"; no `InvalidArchitecture` error reaches the batch's
failure channel. -/
theorem virt_to_phys_iter_mismatch_panics (t : Win32VirtualTranslate)
    (hx : x86_new_translator t.dtb t.sys_arch = none)
    (ha : arm_new_translator_nonsplit t.dtb t.sys_arch = none) :
    t.virt_to_phys_iter_dispatch =
      VatDispatch.panicked "Invalid architecture" := by
  unfold Win32VirtualTranslate.virt_to_phys_iter_dispatch
  rw [hx, ha]

/-- Witness for the amended mismatch claim at an unconfigured architecture. -/
theorem virt_to_phys_iter_mismatch_panics_instance :
    x86_new_translator 0 ArchObj.unknown = none ∧
      arm_new_translator_nonsplit 0 ArchObj.unknown = none ∧
      (Win32VirtualTranslate.mk ArchObj.unknown 0).virt_to_phys_iter_dispatch =
        VatDispatch.panicked "Invalid architecture" :=
  ⟨rfl, rfl,
    virt_to_phys_iter_mismatch_panics
      (Win32VirtualTranslate.mk ArchObj.unknown 0) rfl rfl⟩

/-- Claim C9: `translation_table_id` is the DTB shifted right by the page
shift (12 bits for 4 KiB pages), whatever the address argument. -/
theorem translation_table_id_shifts_dtb (arch : ArchObj) (dtb a1 a2 : Addr)
    (h : dtb < 2 ^ 64) :
    (Win32VirtualTranslate.mk arch dtb).translation_table_id a1 =
        dtb / 2 ^ 12 ∧
      (Win32VirtualTranslate.mk arch dtb).translation_table_id a1 =
        (Win32VirtualTranslate.mk arch dtb).translation_table_id a2 := by
  unfold Win32VirtualTranslate.translation_table_id
  dsimp only
  rw [Nat.mod_eq_of_lt h, Nat.shiftRight_eq_div_pow]
  exact ⟨rfl, rfl⟩

/-- Witness for the translation-table-id claim at a concrete DTB. -/
theorem translation_table_id_shifts_dtb_instance :
    (0x1ab000 : Nat) < 2 ^ 64 ∧
      ((Win32VirtualTranslate.mk ArchObj.x86_64 0x1ab000).translation_table_id
          0 = 0x1ab000 / 2 ^ 12 ∧
        (Win32VirtualTranslate.mk ArchObj.x86_64 0x1ab000).translation_table_id
            0 =
          (Win32VirtualTranslate.mk ArchObj.x86_64
              0x1ab000).translation_table_id 12345) :=
  ⟨by decide,
    translation_table_id_shifts_dtb ArchObj.x86_64 0x1ab000 0 12345 (by decide)⟩

theorem except_bind_ok {ε α β : Type} {x : Except ε α} {f : α → Except ε β}
    {b : β} (h : x >>= f = .ok b) : ∃ a, x = .ok a ∧ f a = .ok b := by
  cases x with
  | ok a => exact ⟨a, rfl, h⟩
  | error e =>
    simp only [bind, Except.bind] at h
    exact Except.noConfusion h

theorem ofOption_ok {α : Type} {o : Option α} {msg : String} {a : α}
    (h : ofOption o msg = .ok a) : o = some a := by
  cases o with
  | some x =>
    simp only [ofOption] at h
    rw [Except.ok.inj h]
  | none => exact Except.noConfusion h

/-- The struct fields `from_pdb_slice` insists on: the six structs must be
present and each of the eleven non-optional fields must resolve
(`WoW64Process`/`Wow64Process` and `_TEB32` are the optional ones). -/
def requiredPdbPresent (pdb : PdbFile) : Prop :=
  ((pdb.getStruct "_LIST_ENTRY").bind fun s =>
    s.find_field "Blink").isSome = true ∧
  ((pdb.getStruct "_KPROCESS").bind fun s =>
    s.find_field "DirectoryTableBase").isSome = true ∧
  ((pdb.getStruct "_EPROCESS").bind fun s =>
    s.find_field "ActiveProcessLinks").isSome = true ∧
  ((pdb.getStruct "_EPROCESS").bind fun s =>
    s.find_field "UniqueProcessId").isSome = true ∧
  ((pdb.getStruct "_EPROCESS").bind fun s =>
    s.find_field "ImageFileName").isSome = true ∧
  ((pdb.getStruct "_EPROCESS").bind fun s =>
    s.find_field "Peb").isSome = true ∧
  ((pdb.getStruct "_EPROCESS").bind fun s =>
    s.find_field "ThreadListHead").isSome = true ∧
  ((pdb.getStruct "_KTHREAD").bind fun s =>
    s.find_field "Teb").isSome = true ∧
  ((pdb.getStruct "_ETHREAD").bind fun s =>
    s.find_field "ThreadListEntry").isSome = true ∧
  ((pdb.getStruct "_TEB").bind fun s =>
    s.find_field "ProcessEnvironmentBlock").isSome = true

theorem from_pdb_ok_required (pdb : PdbFile) (d : Win32OffsetsData)
    (h : from_pdb_slice pdb = .ok d) : requiredPdbPresent pdb := by
  unfold from_pdb_slice at h
  obtain ⟨ls, hls, h⟩ := except_bind_ok h
  obtain ⟨kp, hkp, h⟩ := except_bind_ok h
  obtain ⟨ep, hep, h⟩ := except_bind_ok h
  obtain ⟨et, het, h⟩ := except_bind_ok h
  obtain ⟨kt, hkt, h⟩ := except_bind_ok h
  obtain ⟨tb, htb, h⟩ := except_bind_ok h
  obtain ⟨bOff, hblink, h⟩ := except_bind_ok h
  obtain ⟨lOff, hlink, h⟩ := except_bind_ok h
  obtain ⟨dOff, hdtb, h⟩ := except_bind_ok h
  obtain ⟨pidOff, hpid, h⟩ := except_bind_ok h
  obtain ⟨nameOff, hname, h⟩ := except_bind_ok h
  obtain ⟨pebOff, hpeb, h⟩ := except_bind_ok h
  obtain ⟨tlOff, htl, h⟩ := except_bind_ok h
  obtain ⟨tebOff, hteb, h⟩ := except_bind_ok h
  obtain ⟨tleOff, htle, h⟩ := except_bind_ok h
  obtain ⟨tpOff, htp, h⟩ := except_bind_ok h
  refine ⟨?_, ?_, ?_, ?_, ?_, ?_, ?_, ?_, ?_, ?_⟩
  · rw [ofOption_ok hls]
    simp [ofOption_ok hblink]
  · rw [ofOption_ok hkp]
    simp [ofOption_ok hdtb]
  · rw [ofOption_ok hep]
    simp [ofOption_ok hlink]
  · rw [ofOption_ok hep]
    simp [ofOption_ok hpid]
  · rw [ofOption_ok hep]
    simp [ofOption_ok hname]
  · rw [ofOption_ok hep]
    simp [ofOption_ok hpeb]
  · rw [ofOption_ok hep]
    simp [ofOption_ok htl]
  · rw [ofOption_ok hkt]
    simp [ofOption_ok hteb]
  · rw [ofOption_ok het]
    simp [ofOption_ok htle]
  · rw [ofOption_ok htb]
    simp [ofOption_ok htp]

theorem from_pdb_of_present (pdb : PdbFile)
    (ls kp ep et kt tb : PdbStructData)
    (bOff lOff dOff pidOff nameOff pebOff tlOff tebOff tleOff tpOff : Nat)
    (hls : pdb.getStruct "_LIST_ENTRY" = some ls)
    (hkp : pdb.getStruct "_KPROCESS" = some kp)
    (hep : pdb.getStruct "_EPROCESS" = some ep)
    (het : pdb.getStruct "_ETHREAD" = some et)
    (hkt : pdb.getStruct "_KTHREAD" = some kt)
    (htb : pdb.getStruct "_TEB" = some tb)
    (hblink : ls.find_field "Blink" = some bOff)
    (hlink : ep.find_field "ActiveProcessLinks" = some lOff)
    (hdtb : kp.find_field "DirectoryTableBase" = some dOff)
    (hpid : ep.find_field "UniqueProcessId" = some pidOff)
    (hname : ep.find_field "ImageFileName" = some nameOff)
    (hpeb : ep.find_field "Peb" = some pebOff)
    (htl : ep.find_field "ThreadListHead" = some tlOff)
    (hw1 : ep.find_field "WoW64Process" = none)
    (hw2 : ep.find_field "Wow64Process" = none)
    (hteb : kt.find_field "Teb" = some tebOff)
    (htle : et.find_field "ThreadListEntry" = some tleOff)
    (htp : tb.find_field "ProcessEnvironmentBlock" = some tpOff)
    (h32 : pdb.getStruct "_TEB32" = none) :
    from_pdb_slice pdb = .ok
      { list_blink := bOff, eproc_link := lOff, kproc_dtb := dOff,
        eproc_pid := pidOff, eproc_name := nameOff, eproc_peb := pebOff,
        eproc_thread_list := tlOff, eproc_wow64 := 0, kthread_teb := tebOff,
        ethread_list_entry := tleOff, teb_peb := tpOff, teb_peb_x86 := 0 } := by
  unfold from_pdb_slice
  rw [hls, hkp, hep, het, hkt, htb]
  simp [ofOption, bind, Except.bind, pure, Except.pure, hblink, hlink, hdtb,
    hpid, hname, hpeb, htl, hw1, hw2, hteb, htle, htp, h32, Option.orElse]

/-- Claim C10: `from_pdb_slice` tolerates the absent optional PDB entries —
with `WoW64Process`/`Wow64Process` both missing it still succeeds with
`eproc_wow64 = 0`, with `_TEB32` missing it still succeeds with
`teb_peb_x86 = 0` — while a missing required struct or field makes it fail
(whenever it returns `Ok`, every required lookup succeeded). -/
theorem from_pdb_slice_optional_fields :
    (∀ pdb : PdbFile, ∀ d : Win32OffsetsData,
      from_pdb_slice pdb = .ok d → requiredPdbPresent pdb) ∧
    (∀ (pdb : PdbFile) (ls kp ep et kt tb : PdbStructData)
      (bOff lOff dOff pidOff nameOff pebOff tlOff tebOff tleOff tpOff : Nat),
      pdb.getStruct "_LIST_ENTRY" = some ls →
      pdb.getStruct "_KPROCESS" = some kp →
      pdb.getStruct "_EPROCESS" = some ep →
      pdb.getStruct "_ETHREAD" = some et →
      pdb.getStruct "_KTHREAD" = some kt →
      pdb.getStruct "_TEB" = some tb →
      ls.find_field "Blink" = some bOff →
      ep.find_field "ActiveProcessLinks" = some lOff →
      kp.find_field "DirectoryTableBase" = some dOff →
      ep.find_field "UniqueProcessId" = some pidOff →
      ep.find_field "ImageFileName" = some nameOff →
      ep.find_field "Peb" = some pebOff →
      ep.find_field "ThreadListHead" = some tlOff →
      ep.find_field "WoW64Process" = none →
      ep.find_field "Wow64Process" = none →
      kt.find_field "Teb" = some tebOff →
      et.find_field "ThreadListEntry" = some tleOff →
      tb.find_field "ProcessEnvironmentBlock" = some tpOff →
      pdb.getStruct "_TEB32" = none →
      from_pdb_slice pdb = .ok
        { list_blink := bOff, eproc_link := lOff, kproc_dtb := dOff,
          eproc_pid := pidOff, eproc_name := nameOff, eproc_peb := pebOff,
          eproc_thread_list := tlOff, eproc_wow64 := 0, kthread_teb := tebOff,
          ethread_list_entry := tleOff, teb_peb := tpOff,
          teb_peb_x86 := 0 }) :=
  ⟨from_pdb_ok_required, from_pdb_of_present⟩

/-- A PDB with all required structs and fields (offsets of the repository's
own `download_pdb` test), but no `WoW64Process`/`Wow64Process` field and no
`_TEB32` struct. -/
def testPdb : PdbFile :=
  ⟨[("_LIST_ENTRY", ⟨[("Flink", 0), ("Blink", 8)]⟩),
    ("_KPROCESS", ⟨[("DirectoryTableBase", 40)]⟩),
    ("_EPROCESS", ⟨[("ActiveProcessLinks", 392), ("UniqueProcessId", 384),
      ("ImageFileName", 736), ("Peb", 824), ("ThreadListHead", 776)]⟩),
    ("_ETHREAD", ⟨[("ThreadListEntry", 1056)]⟩),
    ("_KTHREAD", ⟨[("Teb", 184)]⟩),
    ("_TEB", ⟨[("ProcessEnvironmentBlock", 96)]⟩)]⟩

/-- Witness for the optional-fields claim on `testPdb`: the parse succeeds
with `eproc_wow64 = 0` and `teb_peb_x86 = 0`. -/
theorem from_pdb_slice_optional_fields_instance :
    from_pdb_slice testPdb = .ok
        { list_blink := 8, eproc_link := 392, kproc_dtb := 40,
          eproc_pid := 384, eproc_name := 736, eproc_peb := 824,
          eproc_thread_list := 776, eproc_wow64 := 0, kthread_teb := 184,
          ethread_list_entry := 1056, teb_peb := 96, teb_peb_x86 := 0 } ∧
      requiredPdbPresent testPdb := by
  have h1 := from_pdb_slice_optional_fields.2 testPdb
    ⟨[("Flink", 0), ("Blink", 8)]⟩ ⟨[("DirectoryTableBase", 40)]⟩
    ⟨[("ActiveProcessLinks", 392), ("UniqueProcessId", 384),
      ("ImageFileName", 736), ("Peb", 824), ("ThreadListHead", 776)]⟩
    ⟨[("ThreadListEntry", 1056)]⟩ ⟨[("Teb", 184)]⟩
    ⟨[("ProcessEnvironmentBlock", 96)]⟩
    8 392 40 384 736 824 776 184 1056 96
    (by decide) (by decide) (by decide) (by decide) (by decide) (by decide)
    (by decide) (by decide) (by decide) (by decide) (by decide) (by decide)
    (by decide) (by decide) (by decide) (by decide) (by decide) (by decide)
    (by decide)
  exact ⟨h1, from_pdb_slice_optional_fields.1 testPdb _ h1⟩

end Memflow
